import Mathlib

/-!
# Verification of the banking domain model

A shallow embedding of `src/topic_folders/OOPS_LLD/Banking_system_LLD.py`.

Python numbers are modelled as exact rationals (`Rat`); Python
exceptions are modelled with `Except PyError`; the process-wide class
variable `Account._account_count` is modelled by explicit state passing;
log output (`Logger.info`) is modelled by returning the logged message
alongside the new state.  Each Lean definition mirrors one Python
function or class of the source, keeping its name where Lean allows it.
-/

/-- Python exceptions raised by the source: `ValueError(msg)` raised
explicitly, and `TypeError` produced by the interpreter when `__add__`
returns `NotImplemented` and no reflected operation applies. -/
inductive PyError where
  | valueError (msg : String)
  | typeError (msg : String)
deriving Repr, DecidableEq

/-- `SavingsAccount`: fields set by `Account.__init__` (`owner`,
`_balance`) plus `interest_rate` set by `SavingsAccount.__init__`. -/
structure SavingsAccount where
  owner : String
  _balance : Rat
  interest_rate : Rat
deriving Repr, DecidableEq

/-- `CurrentAccount`: fields set by `Account.__init__` (`owner`,
`_balance`) plus `overdraft_limit` set by `CurrentAccount.__init__`. -/
structure CurrentAccount where
  owner : String
  _balance : Rat
  overdraft_limit : Rat
deriving Repr, DecidableEq

/-- A runtime `Account` instance is one of the two concrete variants
(`Account` itself is abstract: it has an abstract `withdraw` and is
never instantiated directly). -/
inductive AccountObj where
  | savings (s : SavingsAccount)
  | current (c : CurrentAccount)
deriving Repr, DecidableEq

/-- `Account.validate_amount` (static method): raises
`ValueError("Amount must be positive")` when `amount <= 0`. -/
def validate_amount (amount : Rat) : Except PyError Unit :=
  if amount ≤ 0 then .error (.valueError "Amount must be positive")
  else .ok ()

/-- The `balance` property getter: returns the private `_balance`. -/
def SavingsAccount.balance (s : SavingsAccount) : Rat := s._balance

/-- The `balance` property getter: returns the private `_balance`. -/
def CurrentAccount.balance (c : CurrentAccount) : Rat := c._balance

/-- The `balance` property getter, uniformly over the two variants. -/
def AccountObj.balance : AccountObj → Rat
  | .savings s => s.balance
  | .current c => c.balance

/-- Overwrite the private `_balance` field directly (as
`self._balance = ...` does inside the class body, bypassing the
property setter). -/
def AccountObj.setRawBalance : AccountObj → Rat → AccountObj
  | .savings s, v => .savings { s with _balance := v }
  | .current c, v => .current { c with _balance := v }

/-- The `balance` property setter (`@balance.setter`): raises
`ValueError("Balance cannot be negative")` when the assigned value is
negative, otherwise stores it in `_balance`. -/
def AccountObj.balance_set (self : AccountObj) (amount : Rat) :
    Except PyError AccountObj :=
  if amount < 0 then .error (.valueError "Balance cannot be negative")
  else .ok (self.setRawBalance amount)

/-- `Account.deposit`: validates the amount, then adds it to `_balance`
and logs `"Deposited {amount}. New balance: {balance}"`.  The logged
message is returned alongside the updated account. -/
def AccountObj.deposit (self : AccountObj) (amount : Rat) :
    Except PyError (AccountObj × String) := do
  validate_amount amount
  let b := self.balance + amount
  .ok (self.setRawBalance b,
    "Deposited " ++ toString amount ++ ". New balance: " ++ toString b)

/-- `SavingsAccount.withdraw`: validates the amount, raises
`ValueError("Insufficient funds in savings")` when `amount > _balance`,
otherwise subtracts and logs the new balance. -/
def SavingsAccount.withdraw (self : SavingsAccount) (amount : Rat) :
    Except PyError (SavingsAccount × String) := do
  validate_amount amount
  if amount > self._balance then
    .error (.valueError "Insufficient funds in savings")
  else
    let b := self._balance - amount
    .ok ({ self with _balance := b },
      "Withdrew " ++ toString amount ++ ". New balance: " ++ toString b)

/-- `CurrentAccount.withdraw`: validates the amount, raises
`ValueError("Overdraft limit exceeded")` when
`amount > _balance + overdraft_limit`, otherwise subtracts and logs the
new balance. -/
def CurrentAccount.withdraw (self : CurrentAccount) (amount : Rat) :
    Except PyError (CurrentAccount × String) := do
  validate_amount amount
  if amount > self._balance + self.overdraft_limit then
    .error (.valueError "Overdraft limit exceeded")
  else
    let b := self._balance - amount
    .ok ({ self with _balance := b },
      "Withdrew " ++ toString amount ++ ". New balance: " ++ toString b)

/-- `InterestMixin.calculate_interest`:
`self.balance * (self.interest_rate / 100)`.  A pure function of the
account (no state is modified). -/
def SavingsAccount.calculate_interest (self : SavingsAccount) : Rat :=
  self.balance * (self.interest_rate / 100)

/-- The right-hand operand of `+` on an account: either another
`Account` instance or any non-account Python value (represented only by
a descriptive tag, since `__add__` never inspects it further than an
`isinstance` check). -/
inductive PyOperand where
  | account (a : AccountObj)
  | nonAccount (tag : String)
deriving Repr, DecidableEq

/-- `Account.__add__` together with the interpreter's fallback: when
`other` is an `Account`, return the sum of the two balances; when it is
not, `__add__` returns `NotImplemented` and (no reflected `__radd__`
applying) the interpreter raises a `TypeError`. -/
def AccountObj.add (self : AccountObj) (other : PyOperand) :
    Except PyError Rat :=
  match other with
  | .account a => .ok (self.balance + a.balance)
  | .nonAccount _ =>
      .error (.typeError "unsupported operand type(s) for +")

/-- `Account.__str__`:
`"Account(owner={owner}, balance={balance})"`. -/
def AccountObj.toStr (self : AccountObj) : String :=
  let ow := match self with
    | .savings s => s.owner
    | .current c => c.owner
  "Account(owner=" ++ ow ++ ", balance=" ++ toString self.balance ++ ")"

/-- `Customer`: a name and an ordered list of aggregated accounts. -/
structure Customer where
  name : String
  accounts : List AccountObj
deriving Repr, DecidableEq

/-- `Customer.__init__`: starts with an empty account list. -/
def Customer.init (name : String) : Customer :=
  { name := name, accounts := [] }

/-- `Customer.open_account`: appends the account to the customer's
list and prints a confirmation message (returned here). -/
def Customer.open_account (self : Customer) (account : AccountObj) :
    Customer × String :=
  ({ self with accounts := self.accounts ++ [account] },
   "Account opened for " ++ self.name ++ ": " ++ account.toStr)

/-- `Customer.total_balance`:
`sum(acc.balance for acc in self.accounts)` — Python's `sum` folds the
balances left to right starting from `0`. -/
def Customer.total_balance (self : Customer) : Rat :=
  self.accounts.foldl (fun acc a => acc + a.balance) 0

/-- `SavingsAccount.__init__` threading the class counter
`Account._account_count`: `super().__init__` stores the owner and the
initial balance unvalidated and increments the counter, then the
interest rate is stored. -/
def SavingsAccount.init (owner : String) (balance interest_rate : Rat)
    (account_count : Nat) : SavingsAccount × Nat :=
  ({ owner := owner, _balance := balance, interest_rate := interest_rate },
   account_count + 1)

/-- `CurrentAccount.__init__` threading the class counter
`Account._account_count`: `super().__init__` stores the owner and the
initial balance unvalidated and increments the counter, then the
overdraft limit is stored. -/
def CurrentAccount.init (owner : String) (balance overdraft_limit : Rat)
    (account_count : Nat) : CurrentAccount × Nat :=
  ({ owner := owner, _balance := balance, overdraft_limit := overdraft_limit },
   account_count + 1)

/-- `Account.get_account_count` (class method): reads the counter. -/
def get_account_count (account_count : Nat) : Nat := account_count

/-- The process-wide state: the class counter `Account._account_count`
and the accounts constructed so far (indexed by position). -/
structure BankState where
  account_count : Nat
  accounts : List AccountObj
deriving Repr, DecidableEq

/-- One operation of the program: constructing an account of either
variant, or invoking a mutator / accessor on an existing account
(referred to by its index). -/
inductive BankOp where
  | constructSavings (owner : String) (balance interest_rate : Rat)
  | constructCurrent (owner : String) (balance overdraft_limit : Rat)
  | depositOp (i : Nat) (amount : Rat)
  | withdrawOp (i : Nat) (amount : Rat)
  | setBalanceOp (i : Nat) (amount : Rat)
  | getCountOp
deriving Repr, DecidableEq

/-- `withdraw` dispatched dynamically on the variant, as Python's
method resolution does. -/
def AccountObj.withdraw (self : AccountObj) (amount : Rat) :
    Except PyError (AccountObj × String) :=
  match self with
  | .savings s => (s.withdraw amount).map (fun r => (.savings r.1, r.2))
  | .current c => (c.withdraw amount).map (fun r => (.current r.1, r.2))

/-- Apply an account-mutating call at index `i`; a raised exception
propagates to the caller and leaves the state unchanged. -/
def BankState.applyAt (st : BankState) (i : Nat)
    (f : AccountObj → Except PyError AccountObj) : BankState :=
  match st.accounts[i]? with
  | none => st
  | some a =>
      match f a with
      | .error _ => st
      | .ok a' => { st with accounts := st.accounts.set i a' }

/-- Run one operation on the process state. -/
def BankOp.run (op : BankOp) (st : BankState) : BankState :=
  match op with
  | .constructSavings ow b r =>
      let (acc, n) := SavingsAccount.init ow b r st.account_count
      { account_count := n, accounts := st.accounts ++ [.savings acc] }
  | .constructCurrent ow b l =>
      let (acc, n) := CurrentAccount.init ow b l st.account_count
      { account_count := n, accounts := st.accounts ++ [.current acc] }
  | .depositOp i a =>
      st.applyAt i (fun acc => (acc.deposit a).map Prod.fst)
  | .withdrawOp i a =>
      st.applyAt i (fun acc => (acc.withdraw a).map Prod.fst)
  | .setBalanceOp i a =>
      st.applyAt i (fun acc => acc.balance_set a)
  | .getCountOp => st

/-- Run a sequence of operations left to right. -/
def BankState.runOps (st : BankState) (ops : List BankOp) : BankState :=
  ops.foldl (fun s op => op.run s) st

/-- Whether an operation is an account construction. -/
def BankOp.isConstruct : BankOp → Bool
  | .constructSavings _ _ _ => true
  | .constructCurrent _ _ _ => true
  | _ => false

/-! ## Helper lemmas -/

theorem AccountObj.balance_setRaw (acc : AccountObj) (v : Rat) :
    (acc.setRawBalance v).balance = v := by
  cases acc <;> rfl

theorem BankState.applyAt_error (st : BankState) (i : Nat)
    (f : AccountObj → Except PyError AccountObj) (a : AccountObj) (e : PyError)
    (ha : st.accounts[i]? = some a) (hf : f a = .error e) :
    st.applyAt i f = st := by
  simp [BankState.applyAt, ha, hf]

theorem BankState.applyAt_count (st : BankState) (i : Nat)
    (f : AccountObj → Except PyError AccountObj) :
    (st.applyAt i f).account_count = st.account_count := by
  unfold BankState.applyAt
  cases h : st.accounts[i]? with
  | none => simp
  | some a => cases hf : f a <;> simp [hf]

theorem savings_withdraw_nonpos (s : SavingsAccount) (a : Rat) (h : a ≤ 0) :
    s.withdraw a = .error (.valueError "Amount must be positive") := by
  simp [SavingsAccount.withdraw, validate_amount, h, Bind.bind, Except.bind]

theorem savings_withdraw_insufficient (s : SavingsAccount) (a : Rat)
    (h0 : ¬ a ≤ 0) (h1 : s._balance < a) :
    s.withdraw a = .error (.valueError "Insufficient funds in savings") := by
  simp [SavingsAccount.withdraw, validate_amount, h0, h1, Bind.bind, Except.bind]

theorem savings_withdraw_ok (s : SavingsAccount) (a : Rat)
    (h0 : ¬ a ≤ 0) (h1 : ¬ s._balance < a) :
    s.withdraw a = .ok ({ s with _balance := s._balance - a },
      "Withdrew " ++ toString a ++ ". New balance: " ++ toString (s._balance - a)) := by
  simp [SavingsAccount.withdraw, validate_amount, h0, h1, Bind.bind, Except.bind]

theorem current_withdraw_nonpos (c : CurrentAccount) (a : Rat) (h : a ≤ 0) :
    c.withdraw a = .error (.valueError "Amount must be positive") := by
  simp [CurrentAccount.withdraw, validate_amount, h, Bind.bind, Except.bind]

theorem current_withdraw_exceeded (c : CurrentAccount) (a : Rat)
    (h0 : ¬ a ≤ 0) (h1 : c._balance + c.overdraft_limit < a) :
    c.withdraw a = .error (.valueError "Overdraft limit exceeded") := by
  simp [CurrentAccount.withdraw, validate_amount, h0, h1, Bind.bind, Except.bind]

theorem current_withdraw_ok (c : CurrentAccount) (a : Rat)
    (h0 : ¬ a ≤ 0) (h1 : ¬ c._balance + c.overdraft_limit < a) :
    c.withdraw a = .ok ({ c with _balance := c._balance - a },
      "Withdrew " ++ toString a ++ ". New balance: " ++ toString (c._balance - a)) := by
  simp [CurrentAccount.withdraw, validate_amount, h0, h1, Bind.bind, Except.bind]

theorem deposit_nonpos (acc : AccountObj) (a : Rat) (h : a ≤ 0) :
    acc.deposit a = .error (.valueError "Amount must be positive") := by
  simp [AccountObj.deposit, validate_amount, h, Bind.bind, Except.bind]

theorem deposit_ok (acc : AccountObj) (a : Rat) (h : ¬ a ≤ 0) :
    acc.deposit a = .ok (acc.setRawBalance (acc.balance + a),
      "Deposited " ++ toString a ++ ". New balance: " ++ toString (acc.balance + a)) := by
  simp [AccountObj.deposit, validate_amount, h, Bind.bind, Except.bind]

/-! ## Claim theorems -/

/-- **C1**: For every `SavingsAccount`: `withdraw a` with `a ≤ 0` fails
with the invalid-amount error; with `a` above the current balance it
fails with the insufficient-funds error leaving the balance unchanged
(the process-state semantics returns the state untouched on any raised
error); and with `0 < a ≤ balance` it succeeds with post-balance equal
to pre-balance minus `a`. -/
theorem savings_withdraw_spec (s : SavingsAccount) (a : Rat) :
    (a ≤ 0 → s.withdraw a = .error (.valueError "Amount must be positive")) ∧
    (0 < a → s._balance < a →
      s.withdraw a = .error (.valueError "Insufficient funds in savings")) ∧
    (0 < a → a ≤ s._balance →
      s.withdraw a = .ok ({ s with _balance := s._balance - a },
        "Withdrew " ++ toString a ++ ". New balance: " ++ toString (s._balance - a))) ∧
    (∀ (st : BankState) (i : Nat), st.accounts[i]? = some (.savings s) →
      ¬ (0 < a ∧ a ≤ s._balance) → (BankOp.withdrawOp i a).run st = st) := by
  refine ⟨fun h => savings_withdraw_nonpos s a h,
          fun h0 h1 => savings_withdraw_insufficient s a (not_le.mpr h0) h1,
          fun h0 h2 => savings_withdraw_ok s a (not_le.mpr h0) (not_lt.mpr h2),
          ?_⟩
  intro st i hi hna
  have herr : ∃ e, s.withdraw a = .error e := by
    by_cases h0 : a ≤ 0
    · exact ⟨_, savings_withdraw_nonpos s a h0⟩
    · have h1 : s._balance < a := by
        by_contra h2
        exact hna ⟨not_le.mp h0, not_lt.mp h2⟩
      exact ⟨_, savings_withdraw_insufficient s a h0 h1⟩
  obtain ⟨e, he⟩ := herr
  show st.applyAt i _ = st
  exact BankState.applyAt_error st i _ _ e hi (by simp [AccountObj.withdraw, he, Except.map])

/-- Witness for C1 at concrete inputs: balance 10, withdrawals of 4
(success), 11 (insufficient funds) and 0 (invalid amount). -/
theorem savings_withdraw_spec_witness :
    SavingsAccount.withdraw ⟨"alice", 10, 7/2⟩ 4 =
      .ok (⟨"alice", (10:Rat) - 4, 7/2⟩,
        "Withdrew " ++ toString (4:Rat) ++ ". New balance: " ++ toString ((10:Rat) - 4)) ∧
    SavingsAccount.withdraw ⟨"alice", 10, 7/2⟩ 11 =
      .error (.valueError "Insufficient funds in savings") ∧
    SavingsAccount.withdraw ⟨"alice", 10, 7/2⟩ 0 =
      .error (.valueError "Amount must be positive") := by
  refine ⟨?_, ?_, ?_⟩
  · exact (savings_withdraw_spec ⟨"alice", 10, 7/2⟩ 4).2.2.1 (by norm_num) (by norm_num)
  · exact (savings_withdraw_spec ⟨"alice", 10, 7/2⟩ 11).2.1 (by norm_num) (by norm_num)
  · exact (savings_withdraw_spec ⟨"alice", 10, 7/2⟩ 0).1 (by norm_num)

/-- **C2**: For every `CurrentAccount`: `withdraw a` with `a ≤ 0` fails
with the invalid-amount error; with `a` above `balance + overdraft_limit`
it fails with the overdraft error leaving the state unchanged; with
`0 < a ≤ balance + overdraft_limit` it succeeds with post-balance equal
to pre-balance minus `a`; and withdrawing exactly
`balance + overdraft_limit` (when positive) leaves the balance at
exactly `-overdraft_limit`. -/
theorem current_withdraw_spec (c : CurrentAccount) (a : Rat) :
    (a ≤ 0 → c.withdraw a = .error (.valueError "Amount must be positive")) ∧
    (0 < a → c._balance + c.overdraft_limit < a →
      c.withdraw a = .error (.valueError "Overdraft limit exceeded")) ∧
    (0 < a → a ≤ c._balance + c.overdraft_limit →
      c.withdraw a = .ok ({ c with _balance := c._balance - a },
        "Withdrew " ++ toString a ++ ". New balance: " ++ toString (c._balance - a))) ∧
    (0 < c._balance + c.overdraft_limit →
      ∃ msg, c.withdraw (c._balance + c.overdraft_limit) =
        .ok ({ c with _balance := -c.overdraft_limit }, msg)) ∧
    (∀ (st : BankState) (i : Nat), st.accounts[i]? = some (.current c) →
      ¬ (0 < a ∧ a ≤ c._balance + c.overdraft_limit) →
      (BankOp.withdrawOp i a).run st = st) := by
  refine ⟨fun h => current_withdraw_nonpos c a h,
          fun h0 h1 => current_withdraw_exceeded c a (not_le.mpr h0) h1,
          fun h0 h2 => current_withdraw_ok c a (not_le.mpr h0) (not_lt.mpr h2),
          ?_, ?_⟩
  · intro hpos
    have hb : c._balance - (c._balance + c.overdraft_limit) = -c.overdraft_limit := by ring
    have h := current_withdraw_ok c (c._balance + c.overdraft_limit)
      (not_le.mpr hpos) (not_lt.mpr le_rfl)
    rw [hb] at h
    exact ⟨_, h⟩
  · intro st i hi hna
    have herr : ∃ e, c.withdraw a = .error e := by
      by_cases h0 : a ≤ 0
      · exact ⟨_, current_withdraw_nonpos c a h0⟩
      · have h1 : c._balance + c.overdraft_limit < a := by
          by_contra h2
          exact hna ⟨not_le.mp h0, not_lt.mp h2⟩
        exact ⟨_, current_withdraw_exceeded c a h0 h1⟩
    obtain ⟨e, he⟩ := herr
    show st.applyAt i _ = st
    exact BankState.applyAt_error st i _ _ e hi (by simp [AccountObj.withdraw, he, Except.map])

/-- Witness for C2 at concrete inputs: balance 500, overdraft limit
500; withdrawing 300 succeeds, withdrawing 1001 fails, withdrawing 0
fails, and withdrawing exactly 1000 reaches balance −500. -/
theorem current_withdraw_spec_witness :
    CurrentAccount.withdraw ⟨"bob", 500, 500⟩ 300 =
      .ok (⟨"bob", (500:Rat) - 300, 500⟩,
        "Withdrew " ++ toString (300:Rat) ++ ". New balance: " ++ toString ((500:Rat) - 300)) ∧
    CurrentAccount.withdraw ⟨"bob", 500, 500⟩ 1001 =
      .error (.valueError "Overdraft limit exceeded") ∧
    CurrentAccount.withdraw ⟨"bob", 500, 500⟩ 0 =
      .error (.valueError "Amount must be positive") ∧
    (∃ msg, CurrentAccount.withdraw ⟨"bob", 500, 500⟩ ((500:Rat) + 500) =
      .ok (⟨"bob", -(500:Rat), 500⟩, msg)) := by
  refine ⟨?_, ?_, ?_, ?_⟩
  · exact (current_withdraw_spec ⟨"bob", 500, 500⟩ 300).2.2.1 (by norm_num) (by norm_num)
  · exact (current_withdraw_spec ⟨"bob", 500, 500⟩ 1001).2.1 (by norm_num) (by norm_num)
  · exact (current_withdraw_spec ⟨"bob", 500, 500⟩ 0).1 (by norm_num)
  · exact (current_withdraw_spec ⟨"bob", 500, 500⟩ 1).2.2.2.1 (by norm_num)

/-- **C3**: For every account of either variant: `deposit a` with
`a ≤ 0` fails with the invalid-amount error and leaves the balance
unchanged (the process-state semantics returns the state untouched);
with `a > 0` it succeeds and the resulting balance reads
pre-balance + `a`.  Validation precedes mutation: in the embedding the
error branch is taken before any state is produced. -/
theorem deposit_spec (acc : AccountObj) (a : Rat) :
    (a ≤ 0 → acc.deposit a = .error (.valueError "Amount must be positive")) ∧
    (0 < a → acc.deposit a =
      .ok (acc.setRawBalance (acc.balance + a),
        "Deposited " ++ toString a ++ ". New balance: " ++ toString (acc.balance + a)) ∧
      (acc.setRawBalance (acc.balance + a)).balance = acc.balance + a) ∧
    (∀ (st : BankState) (i : Nat), st.accounts[i]? = some acc → a ≤ 0 →
      (BankOp.depositOp i a).run st = st) := by
  refine ⟨fun h => deposit_nonpos acc a h,
          fun h0 => ⟨deposit_ok acc a (not_le.mpr h0), AccountObj.balance_setRaw acc _⟩,
          ?_⟩
  intro st i hi h0
  show st.applyAt i _ = st
  exact BankState.applyAt_error st i _ _ (.valueError "Amount must be positive") hi
    (by simp [deposit_nonpos acc a h0, Except.map])

/-- Witness for C3 at concrete inputs: a savings account with balance
1000; depositing 200 succeeds reading 1200, depositing −5 fails. -/
theorem deposit_spec_witness :
    (AccountObj.savings ⟨"alice", 1000, 7/2⟩).deposit 200 =
      .ok ((AccountObj.savings ⟨"alice", 1000, 7/2⟩).setRawBalance ((1000:Rat) + 200),
        "Deposited " ++ toString (200:Rat) ++ ". New balance: " ++ toString ((1000:Rat) + 200)) ∧
    (AccountObj.savings ⟨"alice", 1000, 7/2⟩).deposit (-5) =
      .error (.valueError "Amount must be positive") := by
  refine ⟨?_, ?_⟩
  · exact ((deposit_spec (AccountObj.savings ⟨"alice", 1000, 7/2⟩) 200).2.1 (by norm_num)).1
  · exact (deposit_spec (AccountObj.savings ⟨"alice", 1000, 7/2⟩) (-5)).1 (by norm_num)

/-- **C4**: Whenever a `SavingsAccount.withdraw` succeeds the resulting
balance is ≥ 0, and whenever a `CurrentAccount.withdraw` succeeds the
resulting balance is ≥ −overdraft_limit, for every starting balance
from which the withdrawal succeeds. -/
theorem withdraw_invariant :
    (∀ (s s' : SavingsAccount) (a : Rat) (msg : String),
      s.withdraw a = .ok (s', msg) → 0 ≤ s'._balance) ∧
    (∀ (c c' : CurrentAccount) (a : Rat) (msg : String),
      c.withdraw a = .ok (c', msg) → -c'.overdraft_limit ≤ c'._balance) := by
  constructor
  · intro s s' a msg h
    by_cases h0 : a ≤ 0
    · rw [savings_withdraw_nonpos s a h0] at h
      exact absurd h (by simp)
    by_cases h1 : s._balance < a
    · rw [savings_withdraw_insufficient s a h0 h1] at h
      exact absurd h (by simp)
    · rw [savings_withdraw_ok s a h0 h1] at h
      obtain ⟨h2, -⟩ : { s with _balance := s._balance - a } = s' ∧ _ := by simpa using h
      subst h2
      have : a ≤ s._balance := not_lt.mp h1
      simp only
      linarith
  · intro c c' a msg h
    by_cases h0 : a ≤ 0
    · rw [current_withdraw_nonpos c a h0] at h
      exact absurd h (by simp)
    by_cases h1 : c._balance + c.overdraft_limit < a
    · rw [current_withdraw_exceeded c a h0 h1] at h
      exact absurd h (by simp)
    · rw [current_withdraw_ok c a h0 h1] at h
      obtain ⟨h2, -⟩ : { c with _balance := c._balance - a } = c' ∧ _ := by simpa using h
      subst h2
      have : a ≤ c._balance + c.overdraft_limit := not_lt.mp h1
      simp only
      linarith

/-- Witness for C4: a successful savings withdrawal (10 − 4) giving a
non-negative balance, and a successful overdraft withdrawal (1 − 4 with
limit 5) giving a balance ≥ −5. -/
theorem withdraw_invariant_witness :
    (0:Rat) ≤ (SavingsAccount.mk "alice" ((10:Rat) - 4) (7/2))._balance ∧
    -(CurrentAccount.mk "bob" ((1:Rat) - 4) 5).overdraft_limit ≤
      (CurrentAccount.mk "bob" ((1:Rat) - 4) 5)._balance := by
  constructor
  · exact withdraw_invariant.1 ⟨"alice", 10, 7/2⟩ ⟨"alice", (10:Rat) - 4, 7/2⟩ 4
      ("Withdrew " ++ toString (4:Rat) ++ ". New balance: " ++ toString ((10:Rat) - 4))
      (savings_withdraw_ok ⟨"alice", 10, 7/2⟩ 4 (by norm_num) (by norm_num))
  · exact withdraw_invariant.2 ⟨"bob", 1, 5⟩ ⟨"bob", (1:Rat) - 4, 5⟩ 4
      ("Withdrew " ++ toString (4:Rat) ++ ". New balance: " ++ toString ((1:Rat) - 4))
      (current_withdraw_ok ⟨"bob", 1, 5⟩ 4 (by norm_num) (by norm_num))

/-- **C5**: The balance write accessor fails with the negative-balance
error exactly when the assigned value is < 0 (leaving the stored
balance unchanged: the process-state semantics returns the state
untouched); assigning a value ≥ 0 stores it and the read accessor then
returns it. -/
theorem balance_setter_spec (acc : AccountObj) (v : Rat) :
    (acc.balance_set v = .error (.valueError "Balance cannot be negative") ↔ v < 0) ∧
    (0 ≤ v → acc.balance_set v = .ok (acc.setRawBalance v) ∧
      (acc.setRawBalance v).balance = v) ∧
    (∀ (st : BankState) (i : Nat), st.accounts[i]? = some acc → v < 0 →
      (BankOp.setBalanceOp i v).run st = st) := by
  refine ⟨?_, ?_, ?_⟩
  · constructor
    · intro h
      by_contra hv
      simp [AccountObj.balance_set, hv] at h
    · intro hv
      simp [AccountObj.balance_set, hv]
  · intro hv
    exact ⟨by simp [AccountObj.balance_set, not_lt.mpr hv],
           AccountObj.balance_setRaw acc v⟩
  · intro st i hi hv
    show st.applyAt i _ = st
    exact BankState.applyAt_error st i _ _ (.valueError "Balance cannot be negative") hi
      (by simp [AccountObj.balance_set, hv])

/-- Witness for C5 at concrete inputs: assigning 7 succeeds and reads
back 7; assigning −1 fails with the negative-balance error. -/
theorem balance_setter_spec_witness :
    ((AccountObj.current ⟨"bob", 3, 500⟩).balance_set 7 =
        .ok ((AccountObj.current ⟨"bob", 3, 500⟩).setRawBalance 7) ∧
      ((AccountObj.current ⟨"bob", 3, 500⟩).setRawBalance 7).balance = 7) ∧
    (AccountObj.current ⟨"bob", 3, 500⟩).balance_set (-1) =
      .error (.valueError "Balance cannot be negative") := by
  constructor
  · exact (balance_setter_spec (AccountObj.current ⟨"bob", 3, 500⟩) 7).2.1 (by norm_num)
  · exact (balance_setter_spec (AccountObj.current ⟨"bob", 3, 500⟩) (-1)).1.mpr (by norm_num)

/-- **C6**: `total_balance` is the sum of the balances of the held
accounts in insertion order, uniformly over both account variants; it
is 0 for a customer with no accounts; and after `open_account acc` it
equals its previous value plus `acc.balance`. -/
theorem total_balance_spec (c : Customer) (a : AccountObj) :
    c.total_balance = (c.accounts.map AccountObj.balance).sum ∧
    (c.accounts = [] → c.total_balance = 0) ∧
    (c.open_account a).1.total_balance = c.total_balance + a.balance := by
  have key : ∀ (l : List AccountObj) (x : Rat),
      l.foldl (fun acc a => acc + a.balance) x = x + (l.map AccountObj.balance).sum := by
    intro l
    induction l with
    | nil => intro x; simp
    | cons y ys ih => intro x; simp [List.foldl_cons, ih, add_assoc]
  refine ⟨?_, ?_, ?_⟩
  · simpa using key c.accounts 0
  · intro h
    simp [Customer.total_balance, h]
  · show (Customer.mk c.name (c.accounts ++ [a])).total_balance = _
    simp only [Customer.total_balance, key]
    simp [List.map_append]

/-- Witness for C6: a customer holding a savings account (balance 1050)
and a current account (balance 200) has total balance 1250; the empty
customer has total balance 0. -/
theorem total_balance_spec_witness :
    (Customer.mk "alice" [.savings ⟨"alice", 1050, 7/2⟩, .current ⟨"alice", 200, 500⟩]).total_balance
      = ([AccountObj.savings ⟨"alice", 1050, 7/2⟩,
          AccountObj.current ⟨"alice", 200, 500⟩].map AccountObj.balance).sum ∧
    (Customer.init "alice").total_balance = 0 ∧
    ((Customer.init "alice").open_account (.savings ⟨"alice", 1050, 7/2⟩)).1.total_balance
      = (Customer.init "alice").total_balance +
        (AccountObj.savings ⟨"alice", 1050, 7/2⟩).balance := by
  refine ⟨?_, ?_, ?_⟩
  · exact (total_balance_spec
      (Customer.mk "alice" [.savings ⟨"alice", 1050, 7/2⟩, .current ⟨"alice", 200, 500⟩])
      (.savings ⟨"alice", 1050, 7/2⟩)).1
  · exact (total_balance_spec (Customer.init "alice") (.savings ⟨"alice", 1050, 7/2⟩)).2.1 rfl
  · exact (total_balance_spec (Customer.init "alice") (.savings ⟨"alice", 1050, 7/2⟩)).2.2

/-- **C7**: The process-wide account counter (read through
`get_account_count`) increases by exactly 1 on each construction of an
account of either variant, no operation of the program ever decreases
it, and running any sequence of `n` constructions (of any mix of
variants) increases it by `n`. -/
theorem account_count_spec :
    (∀ (op : BankOp) (st : BankState), op.isConstruct = true →
      get_account_count (op.run st).account_count
        = get_account_count st.account_count + 1) ∧
    (∀ (op : BankOp) (st : BankState),
      get_account_count st.account_count ≤ get_account_count (op.run st).account_count) ∧
    (∀ (ops : List BankOp) (st : BankState), (∀ op ∈ ops, op.isConstruct = true) →
      get_account_count (st.runOps ops).account_count
        = get_account_count st.account_count + ops.length) := by
  have hconstr : ∀ (op : BankOp) (st : BankState), op.isConstruct = true →
      (op.run st).account_count = st.account_count + 1 := by
    intro op st h
    cases op with
    | constructSavings ow b r => rfl
    | constructCurrent ow b l => rfl
    | depositOp i a => simp [BankOp.isConstruct] at h
    | withdrawOp i a => simp [BankOp.isConstruct] at h
    | setBalanceOp i a => simp [BankOp.isConstruct] at h
    | getCountOp => simp [BankOp.isConstruct] at h
  have hmono : ∀ (op : BankOp) (st : BankState),
      st.account_count ≤ (op.run st).account_count := by
    intro op st
    cases op with
    | constructSavings ow b r => exact Nat.le_succ _
    | constructCurrent ow b l => exact Nat.le_succ _
    | depositOp i a => exact le_of_eq (BankState.applyAt_count st i _).symm
    | withdrawOp i a => exact le_of_eq (BankState.applyAt_count st i _).symm
    | setBalanceOp i a => exact le_of_eq (BankState.applyAt_count st i _).symm
    | getCountOp => exact le_rfl
  have hlist : ∀ (ops : List BankOp) (st : BankState),
      (∀ op ∈ ops, op.isConstruct = true) →
      (st.runOps ops).account_count = st.account_count + ops.length := by
    intro ops
    induction ops with
    | nil => intro st h; rfl
    | cons op rest ih =>
        intro st h
        have h1 := h op (List.mem_cons_self op rest)
        have h2 : ∀ o ∈ rest, o.isConstruct = true :=
          fun o ho => h o (List.mem_cons_of_mem op ho)
        show ((op.run st).runOps rest).account_count = st.account_count + (rest.length + 1)
        rw [ih (op.run st) h2, hconstr op st h1]
        omega
  exact ⟨fun op st h => hconstr op st h,
         fun op st => hmono op st,
         fun ops st h => hlist ops st h⟩

/-- Witness for C7: from count 0, one savings construction yields 1,
and a savings construction followed by a current construction yields 2;
a deposit operation does not decrease the count. -/
theorem account_count_spec_witness :
    get_account_count ((BankOp.constructSavings "alice" 1000 (7/2)).run ⟨0, []⟩).account_count
      = get_account_count (0:Nat) + 1 ∧
    get_account_count ((BankState.mk 0 []).runOps
        [BankOp.constructSavings "alice" 1000 (7/2),
         BankOp.constructCurrent "alice" 500 500]).account_count
      = get_account_count (0:Nat) +
        ([BankOp.constructSavings "alice" 1000 (7/2),
          BankOp.constructCurrent "alice" 500 500] : List BankOp).length ∧
    get_account_count (BankState.mk 0 []).account_count ≤
      get_account_count ((BankOp.depositOp 0 5).run ⟨0, []⟩).account_count := by
  refine ⟨?_, ?_, ?_⟩
  · exact account_count_spec.1 _ _ rfl
  · refine account_count_spec.2.2 _ _ ?_
    intro op hop
    rcases List.mem_cons.mp hop with h | h
    · rw [h]; rfl
    · rcases List.mem_cons.mp h with h' | h'
      · rw [h']; rfl
      · exact absurd h' (List.not_mem_nil op)
  · exact account_count_spec.2.1 _ _

/-- **C8**: Adding two accounts (of any variants) with the overloaded
`+` returns the sum of their balances — a pure computation returning
only a number, so neither operand is modified — and adding a
non-account operand signals a `TypeError` instead of returning a sum. -/
theorem account_add_spec (x y : AccountObj) (t : String) :
    x.add (.account y) = .ok (x.balance + y.balance) ∧
    x.add (.nonAccount t) = .error (.typeError "unsupported operand type(s) for +") :=
  ⟨rfl, rfl⟩

/-- **C9**: `calculate_interest` returns exactly
`balance * interest_rate / 100` — a pure function of the account, with
no state modified — and at balance 1050 with rate 3.5 it yields
exactly 36.75. -/
theorem calculate_interest_spec (s : SavingsAccount) :
    s.calculate_interest = s.balance * s.interest_rate / 100 ∧
    (SavingsAccount.mk "alice" 1050 (7/2)).calculate_interest = 36.75 := by
  constructor
  · rw [SavingsAccount.calculate_interest, mul_div_assoc]
  · norm_num [SavingsAccount.calculate_interest, SavingsAccount.balance]

/-- **C10** (implicit): construction does not validate the initial
balance — for every owner and every initial balance `b`, including
`b < 0`, constructing either variant is a total operation (it cannot
raise: `__init__` stores `_balance` directly, bypassing the property
setter) and the balance read accessor then returns `b`. -/
theorem init_balance_unvalidated (ow : String) (b r l : Rat) (n : Nat) :
    ((SavingsAccount.init ow b r n).1).balance = b ∧
    ((CurrentAccount.init ow b l n).1).balance = b ∧
    (AccountObj.savings (SavingsAccount.init ow b r n).1).balance = b ∧
    (AccountObj.current (CurrentAccount.init ow b l n).1).balance = b :=
  ⟨rfl, rfl, rfl, rfl⟩
